import Mathlib

/-!
Verification development for the HLE kernel archive layer
(`src/core/hle/kernel/archive.cpp`).  The C++ functions are embedded as
executable Lean definitions; machine integers are `Nat` with explicit
`% 2^32` where the source casts to `u32`.
-/

namespace Citra

/-- Guest kernel handle (opaque integer). -/
abbrev Handle := Nat

/-- Archive identifier code (`FileSys::Archive::IdCode`). -/
abbrev IdCode := Nat

/-- File open mode (`FileSys::Mode`), an opaque bit union here. -/
abbrev Mode := Nat

/-- Path type tag (`FileSys::LowPathType`); `archive.cpp` tests for `Binary`. -/
inductive LowPathType where
  | Invalid
  | Empty
  | Binary
  | Char
  | Wchar
deriving DecidableEq, Repr

/-- A filesystem path (`FileSys::Path`): a type tag plus opaque payload. -/
structure Path where
  type : LowPathType
  data : List Nat
deriving DecidableEq, Repr

/-- Modelled from the spec: the error-description field of the structured
result 4-tuple (`core/hle/result.h` is not under `src/`; the spec describes
a 4-tuple (module, description, summary, level)).  Only the descriptions
used by `archive.cpp` and its helpers are listed; numeric codes are needed
solely for the 32-bit `raw` encoding. -/
inductive ErrorDescription where
  | Success
  | InvalidHandle
  | NotImplemented
  | NotFound
  | NoData
deriving DecidableEq, Repr

def ErrorDescription.code : ErrorDescription → Nat
  | .Success => 0
  | .InvalidHandle => 110
  | .NotImplemented => 100
  | .NotFound => 120
  | .NoData => 230

/-- Modelled from the spec: error module field; `archive.cpp` tags all
errors with the FS module. -/
inductive ErrorModule where
  | Common
  | Kernel
  | FS
  | OS
deriving DecidableEq, Repr

def ErrorModule.code : ErrorModule → Nat
  | .Common => 0
  | .Kernel => 2
  | .FS => 17
  | .OS => 3

/-- Modelled from the spec: error summary field. -/
inductive ErrorSummary where
  | Success
  | NothingHappened
  | NotFound
  | InvalidState
  | NotSupported
  | InvalidArgument
  | WrongArgument
  | Canceled
deriving DecidableEq, Repr

def ErrorSummary.code : ErrorSummary → Nat
  | .Success => 0
  | .NothingHappened => 1
  | .NotFound => 4
  | .InvalidState => 5
  | .NotSupported => 6
  | .InvalidArgument => 7
  | .WrongArgument => 8
  | .Canceled => 9

/-- Modelled from the spec: error level field. -/
inductive ErrorLevel where
  | Success
  | Info
  | Status
  | Permanent
  | Usage
deriving DecidableEq, Repr

def ErrorLevel.code : ErrorLevel → Nat
  | .Success => 0
  | .Info => 1
  | .Status => 25
  | .Permanent => 27
  | .Usage => 28

/-- Modelled from the spec: structured result code, the 4-tuple
(module, description, summary, level) of §3/§7 of the spec. -/
structure ResultCode where
  description : ErrorDescription
  module : ErrorModule
  summary : ErrorSummary
  level : ErrorLevel
deriving DecidableEq, Repr

/-- Modelled from the spec: the distinguished all-zero success code. -/
def RESULT_SUCCESS : ResultCode :=
  ⟨.Success, .Common, .Success, .Success⟩

/-- Modelled from the spec: the packed 32-bit wire encoding of a result
code (the value written into the command buffer status word). -/
def ResultCode.raw (rc : ResultCode) : Nat :=
  rc.description.code + rc.module.code * 2 ^ 10 +
    rc.summary.code * 2 ^ 21 + rc.level.code * 2 ^ 27

/-- Modelled from the spec: a code is an error exactly when its raw
encoding is non-zero (success is the all-zero code). -/
def ResultCode.IsError (rc : ResultCode) : Bool :=
  rc.raw != 0

/-- Modelled from the spec: the invalid-handle-class error helper used
uniformly across archive/file/directory lookups. -/
def InvalidHandle (m : ErrorModule) : ResultCode :=
  ⟨.InvalidHandle, m, .InvalidArgument, .Permanent⟩

/-- Modelled from the spec: the unimplemented-function error helper. -/
def UnimplementedFunction (m : ErrorModule) : ResultCode :=
  ⟨.NotImplemented, m, .NotSupported, .Permanent⟩

/-- Modelled from the spec: `ResultVal<T>`, either a success value or a
structured error. -/
inductive ResultVal (α : Type) where
  | ok (val : α)
  | err (code : ResultCode)
deriving DecidableEq, Repr

/-- Modelled from the spec: `ResultVal::Succeeded()`. -/
def ResultVal.Succeeded {α : Type} : ResultVal α → Bool
  | .ok _ => true
  | .err _ => false

/-- Modelled from the spec: `ResultVal::Code()`; a successful value
carries the success code (it holds no error). -/
def ResultVal.Code {α : Type} : ResultVal α → ResultCode
  | .ok _ => RESULT_SUCCESS
  | .err c => c

/-- The NotFound error built at `archive.cpp:265` and `archive.cpp:336`. -/
def notFoundError : ResultCode :=
  ⟨.NotFound, .FS, .NotFound, .Permanent⟩

/-- The NoData/Canceled error built by the delete/create operations. -/
def canceledError : ResultCode :=
  ⟨.NoData, .FS, .Canceled, .Status⟩

/-- The NoData/NothingHappened error built by the rename operations. -/
def nothingHappenedError : ResultCode :=
  ⟨.NoData, .FS, .NothingHappened, .Status⟩

/-- Backend of an open file (`FileSys::File`), an external collaborator:
its operations are modelled as response functions (offset → length → count
for `Read`; offset → length → flush → count for `Write`). -/
structure FileBackend where
  read : Nat → Nat → Nat
  write : Nat → Nat → Nat → Nat
  getSize : Nat

/-- Backend of an open directory (`FileSys::Directory`): `Read` returns
the number of entries actually read for a requested count. -/
structure DirectoryBackend where
  read : Nat → Nat

/-- Archive backend (`FileSys::Archive`), an external collaborator with
raw read/write/size plus the path-level capabilities. -/
structure ArchiveBackend where
  idCode : IdCode
  read : Nat → Nat → Nat
  write : Nat → Nat → Nat → Nat
  getSize : Nat
  openFile : Path → Mode → Option FileBackend
  openDirectory : Path → Option DirectoryBackend
  deleteFile : Path → Bool
  renameFile : Path → Path → Bool
  deleteDirectory : Path → Bool
  createDirectory : Path → Bool
  renameDirectory : Path → Path → Bool

/-- The `Kernel::Archive` object: name plus backend. -/
structure ArchiveData where
  name : String
  backend : ArchiveBackend

/-- The `Kernel::File` object: path plus (possibly null) backend. -/
structure FileData where
  path : Path
  backend : Option FileBackend

/-- The `Kernel::Directory` object: path plus (possibly null) backend. -/
structure DirectoryData where
  path : Path
  backend : Option DirectoryBackend

/-- A kernel object stored in the pool: one of the three variants. -/
inductive KObject where
  | archive (a : ArchiveData)
  | file (f : FileData)
  | directory (d : DirectoryData)

/-- The default-constructed `File` (`new File` at `archive.cpp:325`):
no path, null backend. -/
def FileData.defaultFile : FileData :=
  ⟨⟨.Invalid, []⟩, none⟩

/-- The object pool `Kernel::g_object_pool`: handle-keyed store of live
kernel objects.  Each pool slot holds its own object, so two live handles
never alias one object; `nextHandle` is the next fresh handle. -/
structure ObjectPool where
  entries : List (Handle × KObject)
  nextHandle : Handle

/-- `g_object_pool.Create(obj)`: register `obj` under a fresh handle. -/
def ObjectPool.Create (p : ObjectPool) (o : KObject) : ObjectPool × Handle :=
  (⟨(p.nextHandle, o) :: p.entries, p.nextHandle + 1⟩, p.nextHandle)

/-- Raw pool lookup by handle. -/
def ObjectPool.lookup (p : ObjectPool) (h : Handle) : Option KObject :=
  (p.entries.find? (fun e => e.1 == h)).map (fun e => e.2)

/-- `g_object_pool.Get<Archive>(h)` / `GetFast<Archive>(h)`: type-checked
lookup, `none` when the handle is absent or not an Archive. -/
def ObjectPool.GetArchive (p : ObjectPool) (h : Handle) : Option ArchiveData :=
  match p.lookup h with
  | some (.archive a) => some a
  | _ => none

/-- In-place field update of the object stored at a handle (the C++
mutates the heap object the pool points to). -/
def ObjectPool.setObject (p : ObjectPool) (h : Handle) (o : KObject) : ObjectPool :=
  ⟨p.entries.map (fun e => if e.1 == h then (e.1, o) else e), p.nextHandle⟩

/-- `g_object_pool.Destroy<T>(h)`: release the object, invalidate `h`. -/
def ObjectPool.Destroy (p : ObjectPool) (h : Handle) : ObjectPool :=
  ⟨p.entries.filter (fun e => e.1 != h), p.nextHandle⟩

/-- Pool well-formedness: every live handle is below `nextHandle`
(handles are pool-issued, so a fresh handle never collides). -/
def ObjectPool.WF (p : ObjectPool) : Prop :=
  ∀ e ∈ p.entries, e.1 < p.nextHandle

/-- The archive registry `g_archive_map : std::map<IdCode, Handle>`,
as an association list (iteration order is unused by the code). -/
abbrev ArchiveMap := List (IdCode × Handle)

/-- `g_archive_map.find(idc)`. -/
def ArchiveMap.findId (m : ArchiveMap) (idc : IdCode) : Option Handle :=
  (m.find? (fun e => e.1 == idc)).map (fun e => e.2)

/-- `g_archive_map[idc] = h`: insert-or-assign, as `std::map::operator[]`. -/
def ArchiveMap.insertAssign (m : ArchiveMap) (idc : IdCode) (h : Handle) : ArchiveMap :=
  if (m.find? (fun e => e.1 == idc)).isSome then
    m.map (fun e => if e.1 == idc then (idc, h) else e)
  else
    m ++ [(idc, h)]

/-- `Kernel::OpenArchive` (`archive.cpp:262`): look the id code up in the
registry; absent → NotFound error, present → the stored handle.  The
source only reads `g_archive_map`, so the registry is by construction
unmodified. -/
def OpenArchive (m : ArchiveMap) (idc : IdCode) : ResultVal Handle :=
  match m.findId idc with
  | none => .err notFoundError
  | some h => .ok h

/-- `Kernel::CloseArchive` (`archive.cpp:272`): absent → invalid-handle
error; present → RESULT_SUCCESS.  Note the source never erases the map
entry — the returned map is the input map in both branches. -/
def CloseArchive (m : ArchiveMap) (idc : IdCode) : ArchiveMap × ResultCode :=
  match m.findId idc with
  | none => (m, InvalidHandle .FS)
  | some _ => (m, RESULT_SUCCESS)

/-- `Kernel::MountArchive` (`archive.cpp:287`): if `OpenArchive` on the
backend id code succeeds, return that succeeded result's code (which is
`RESULT_SUCCESS`) without touching the map; otherwise insert the new
handle and return success. -/
def MountArchive (m : ArchiveMap) (archive : ArchiveData) (archiveHandle : Handle) :
    ArchiveMap × ResultCode :=
  let idc := archive.backend.idCode
  let r := OpenArchive m idc
  if r.Succeeded then
    (m, r.Code)
  else
    (m.insertAssign idc archiveHandle, RESULT_SUCCESS)

/-- `Kernel::OpenFileFromArchive` (`archive.cpp:313`): Binary-type paths
short-circuit to the archive handle itself; otherwise a fresh `File` is
registered in the pool first, then the archive handle is resolved, the
file fields are filled in from the backend open, and a null backend maps
to NotFound. -/
def OpenFileFromArchive (pool : ObjectPool) (archiveHandle : Handle)
    (path : Path) (mode : Mode) : ObjectPool × ResultVal Handle :=
  if path.type = LowPathType.Binary then
    (pool, .ok archiveHandle)
  else
    let c := pool.Create (.file FileData.defaultFile)
    let pool1 := c.1
    let fileHandle := c.2
    match pool1.GetArchive archiveHandle with
    | none => (pool1, .err (InvalidHandle .FS))
    | some archive =>
      let fb := archive.backend.openFile path mode
      let pool2 := pool1.setObject fileHandle (.file ⟨path, fb⟩)
      match fb with
      | none => (pool2, .err notFoundError)
      | some _ => (pool2, .ok fileHandle)

/-- `Kernel::DeleteFileFromArchive` (`archive.cpp:343`). -/
def DeleteFileFromArchive (pool : ObjectPool) (archiveHandle : Handle)
    (path : Path) : ResultCode :=
  match pool.GetArchive archiveHandle with
  | none => InvalidHandle .FS
  | some archive =>
    if archive.backend.deleteFile path then RESULT_SUCCESS
    else canceledError

/-- `Kernel::DeleteDirectoryFromArchive` (`archive.cpp:370`). -/
def DeleteDirectoryFromArchive (pool : ObjectPool) (archiveHandle : Handle)
    (path : Path) : ResultCode :=
  match pool.GetArchive archiveHandle with
  | none => InvalidHandle .FS
  | some archive =>
    if archive.backend.deleteDirectory path then RESULT_SUCCESS
    else canceledError

/-- `Kernel::CreateDirectoryFromArchive` (`archive.cpp:380`). -/
def CreateDirectoryFromArchive (pool : ObjectPool) (archiveHandle : Handle)
    (path : Path) : ResultCode :=
  match pool.GetArchive archiveHandle with
  | none => InvalidHandle .FS
  | some archive =>
    if archive.backend.createDirectory path then RESULT_SUCCESS
    else canceledError

/-- `Kernel::RenameFileBetweenArchives` (`archive.cpp:353`).  The C++
compares the two looked-up `Archive*` pointers; pool slots hold distinct
objects, so pointer equality of two valid lookups is handle equality. -/
def RenameFileBetweenArchives (pool : ObjectPool) (srcHandle : Handle)
    (srcPath : Path) (destHandle : Handle) (destPath : Path) : ResultCode :=
  match pool.GetArchive srcHandle, pool.GetArchive destHandle with
  | some src, some _ =>
    if srcHandle = destHandle then
      if src.backend.renameFile srcPath destPath then RESULT_SUCCESS
      else nothingHappenedError
    else
      UnimplementedFunction .FS
  | _, _ => InvalidHandle .FS

/-- `Kernel::RenameDirectoryBetweenArchives` (`archive.cpp:390`). -/
def RenameDirectoryBetweenArchives (pool : ObjectPool) (srcHandle : Handle)
    (srcPath : Path) (destHandle : Handle) (destPath : Path) : ResultCode :=
  match pool.GetArchive srcHandle, pool.GetArchive destHandle with
  | some src, some _ =>
    if srcHandle = destHandle then
      if src.backend.renameDirectory srcPath destPath then RESULT_SUCCESS
      else nothingHappenedError
    else
      UnimplementedFunction .FS
  | _, _ => InvalidHandle .FS

/-- The IPC command buffer: an array of 32-bit guest words, total, so that
out-of-range writes (impossible in the source) need no special case. -/
abbrev CmdBuf := Nat → Nat

/-- Write word `i` of the command buffer. -/
def CmdBuf.setWord (b : CmdBuf) (i v : Nat) : CmdBuf :=
  fun j => if j = i then v else b j

/-- `FileCommand` enumeration values (`archive.cpp:22`). -/
def FileCommand.Dummy1 : Nat := 0x000100C6
def FileCommand.Control : Nat := 0x040100C4
def FileCommand.OpenSubFile : Nat := 0x08010100
def FileCommand.Read : Nat := 0x080200C2
def FileCommand.Write : Nat := 0x08030102
def FileCommand.GetSize : Nat := 0x08040000
def FileCommand.SetSize : Nat := 0x08050080
def FileCommand.GetAttributes : Nat := 0x08060000
def FileCommand.SetAttributes : Nat := 0x08070040
def FileCommand.Close : Nat := 0x08080000
def FileCommand.Flush : Nat := 0x08090000

/-- `DirectoryCommand` enumeration values (`archive.cpp:37`). -/
def DirectoryCommand.Read : Nat := 0x08010042
def DirectoryCommand.Close : Nat := 0x08020000

/-- Decode of a 64-bit value from two buffer words, exactly as the source
writes it: `cmd_buff[lo] | ((u64)cmd_buff[hi] << 32)`. -/
def decode64 (lo hi : Nat) : Nat :=
  lo ||| (hi <<< 32)

/-- Truncation to a 32-bit word (the `(u32)` cast). -/
def toU32 (n : Nat) : Nat := n % 2 ^ 32

/-- Encode of a 64-bit size into (low word, high word), as the `GetSize`
cases write `cmd_buff[2] = (u32)size; cmd_buff[3] = (u32)(size >> 32)`. -/
def encodeSize64 (size : Nat) : Nat × Nat :=
  (toU32 size, toU32 (size >>> 32))

/-- The command identifiers the `Archive`/`File` dispatchers handle
(the `case` labels of their switch at `archive.cpp:59` / `archive.cpp:133`). -/
def archiveRecognized : List Nat :=
  [FileCommand.Read, FileCommand.Write, FileCommand.GetSize,
   FileCommand.SetSize, FileCommand.Close]

/-- Same recognized set for `File::SyncRequest` (same switch labels). -/
def fileRecognized : List Nat := archiveRecognized

/-- The command identifiers `Directory::SyncRequest` handles. -/
def directoryRecognized : List Nat :=
  [DirectoryCommand.Read, DirectoryCommand.Close]

/-- `Archive::SyncRequest` (`archive.cpp:55`): state is the archive map
(touched by the Close case) and the command buffer; the backend is the
external collaborator supplying the operation results.  The data bytes
moved through guest memory are outside this layer. -/
def Archive.SyncRequest (a : ArchiveBackend) (m : ArchiveMap) (buf : CmdBuf) :
    ArchiveMap × CmdBuf × ResultVal Bool :=
  let cmd := buf 0
  if cmd = FileCommand.Read then
    let buf1 := buf.setWord 2 (a.read (decode64 (buf 1) (buf 2)) (buf 3))
    (m, buf1.setWord 1 0, .ok false)
  else if cmd = FileCommand.Write then
    let buf1 := buf.setWord 2 (a.write (decode64 (buf 1) (buf 2)) (buf 3) (buf 4))
    (m, buf1.setWord 1 0, .ok false)
  else if cmd = FileCommand.GetSize then
    let e := encodeSize64 a.getSize
    let buf1 := (buf.setWord 2 e.1).setWord 3 e.2
    (m, buf1.setWord 1 0, .ok false)
  else if cmd = FileCommand.SetSize then
    -- backend->SetSize(decode64 ...) mutates only the external backend
    (m, buf.setWord 1 0, .ok false)
  else if cmd = FileCommand.Close then
    let closed := CloseArchive m a.idCode
    (closed.1, buf.setWord 1 0, .ok false)
  else
    (m, buf, .err (UnimplementedFunction .FS))

/-- `File::SyncRequest` (`archive.cpp:130`): state is the object pool
(touched by the Close case, which destroys the file's own handle) and the
command buffer. -/
def File.SyncRequest (fb : FileBackend) (selfHandle : Handle)
    (pool : ObjectPool) (buf : CmdBuf) : ObjectPool × CmdBuf × ResultVal Bool :=
  let cmd := buf 0
  if cmd = FileCommand.Read then
    let buf1 := buf.setWord 2 (fb.read (decode64 (buf 1) (buf 2)) (buf 3))
    (pool, buf1.setWord 1 0, .ok false)
  else if cmd = FileCommand.Write then
    let buf1 := buf.setWord 2 (fb.write (decode64 (buf 1) (buf 2)) (buf 3) (buf 4))
    (pool, buf1.setWord 1 0, .ok false)
  else if cmd = FileCommand.GetSize then
    let e := encodeSize64 fb.getSize
    let buf1 := (buf.setWord 2 e.1).setWord 3 e.2
    (pool, buf1.setWord 1 0, .ok false)
  else if cmd = FileCommand.SetSize then
    -- backend->SetSize(decode64 (buf 1) (buf 2)) mutates only the backend
    (pool, buf.setWord 1 0, .ok false)
  else if cmd = FileCommand.Close then
    (pool.Destroy selfHandle, buf.setWord 1 0, .ok false)
  else
    let error := UnimplementedFunction .FS
    (pool, buf.setWord 1 error.raw, .err error)

/-- `Directory::SyncRequest` (`archive.cpp:214`). -/
def Directory.SyncRequest (db : DirectoryBackend) (selfHandle : Handle)
    (pool : ObjectPool) (buf : CmdBuf) : ObjectPool × CmdBuf × ResultVal Bool :=
  let cmd := buf 0
  if cmd = DirectoryCommand.Read then
    let buf1 := buf.setWord 2 (db.read (buf 1))
    (pool, buf1.setWord 1 0, .ok false)
  else if cmd = DirectoryCommand.Close then
    (pool.Destroy selfHandle, buf.setWord 1 0, .ok false)
  else
    let error := UnimplementedFunction .FS
    (pool, buf.setWord 1 error.raw, .err error)

/-! Concrete fixtures used by witnesses and counterexamples. -/

/-- A concrete archive backend with id code 1 whose filesystem is empty:
every open returns null and every boolean capability reports failure. -/
def absentBackend : ArchiveBackend :=
  ⟨1, fun _ _ => 0, fun _ _ _ => 0, 0, fun _ _ => none, fun _ => none,
   fun _ => false, fun _ _ => false, fun _ => false, fun _ => false,
   fun _ _ => false⟩

/-- A concrete mounted archive over `absentBackend`. -/
def sdmcArchive : ArchiveData := ⟨"SDMC", absentBackend⟩

/-- The empty object pool. -/
def emptyPool : ObjectPool := ⟨[], 0⟩

/-- A pool holding one live Archive at handle 0. -/
def pool0 : ObjectPool := ⟨[(0, .archive sdmcArchive)], 1⟩

/-- A pool holding two live Archives at handles 0 and 1. -/
def pool2 : ObjectPool :=
  ⟨[(0, .archive sdmcArchive), (1, .archive sdmcArchive)], 2⟩

/-- A concrete non-Binary path. -/
def charPath : Path := ⟨.Char, [1]⟩

/-- A concrete Binary-type path. -/
def binaryPath : Path := ⟨.Binary, [0]⟩

/-- A concrete file backend whose responses are all zero. -/
def fb0 : FileBackend := ⟨fun _ _ => 0, fun _ _ _ => 0, 0⟩

/-- A concrete directory backend whose responses are all zero. -/
def db0 : DirectoryBackend := ⟨fun _ => 0⟩

/-- An all-zero command buffer (word 0 = command identifier 0). -/
def zeroBuf : CmdBuf := fun _ => 0

/-- A command buffer whose word 0 is the `Read` file command. -/
def readBuf : CmdBuf := fun i => if i = 0 then FileCommand.Read else 0

/-! Helper lemmas. -/

/-- A well-formed pool has no object at the next fresh handle. -/
theorem ObjectPool.lookup_next_eq_none (p : ObjectPool) (hwf : p.WF) :
    p.lookup p.nextHandle = none := by
  have hfind : p.entries.find? (fun e => e.1 == p.nextHandle) = none := by
    rw [List.find?_eq_none]
    intro e he
    simp only [beq_iff_eq]
    exact Nat.ne_of_lt (hwf e he)
  simp [ObjectPool.lookup, hfind]

/-- An archive found in a well-formed pool lives below the fresh handle. -/
theorem ObjectPool.getArchive_lt_next (p : ObjectPool) (h : Handle)
    (a : ArchiveData) (hwf : p.WF) (ha : p.GetArchive h = some a) :
    h < p.nextHandle := by
  unfold ObjectPool.GetArchive ObjectPool.lookup at ha
  rcases hfind : p.entries.find? (fun e => e.1 == h) with _ | e
  · rw [hfind] at ha
    simp at ha
  · have hmem := List.mem_of_find?_eq_some hfind
    have hpred := List.find?_some hfind
    have heq : e.1 = h := by simpa using hpred
    have hlt := hwf e hmem
    exact heq ▸ hlt

/-- Registering a fresh object leaves archive lookups of live handles
unchanged. -/
theorem ObjectPool.getArchive_cons_fresh (p : ObjectPool) (o : KObject)
    (h : Handle) (hlt : h < p.nextHandle) :
    ObjectPool.GetArchive ⟨(p.nextHandle, o) :: p.entries, p.nextHandle + 1⟩ h =
      p.GetArchive h := by
  unfold ObjectPool.GetArchive ObjectPool.lookup
  rw [List.find?_cons_of_neg]
  intro hc
  exact absurd (by simpa using hc) (Nat.ne_of_gt hlt)

/-- Updating the head slot of a pool and looking it up returns the new
object. -/
theorem ObjectPool.lookup_setObject_head (nh n2 : Handle) (o0 o : KObject)
    (rest : List (Handle × KObject)) :
    (ObjectPool.setObject ⟨(nh, o0) :: rest, n2⟩ nh o).lookup nh = some o := by
  unfold ObjectPool.setObject ObjectPool.lookup
  simp only [List.map_cons, beq_self_eq_true, if_pos]
  rw [List.find?_cons_of_pos]
  · rfl
  · simp

/-! Claim theorems. -/

/-- C1: mounting a second archive with an id code already present in the
registry leaves the registry pointing at the first handle, but — against
the claim — the returned code is `RESULT_SUCCESS` (the succeeded
`OpenArchive` result's code), not a failure.  With id code 1 mounted at
handle 42, remounting under handle 99 keeps the map at `[(1, 42)]` and
returns a code whose `IsError` is false. -/
theorem c1_mountArchive_duplicate_returns_success :
    MountArchive [(1, 42)] sdmcArchive 99 = ([(1, 42)], RESULT_SUCCESS) ∧
    RESULT_SUCCESS.IsError = false :=
  ⟨rfl, rfl⟩

/-- C2: `CloseArchive` on a present id code returns success but — against
the claim — never removes the registry entry, so a subsequent
`OpenArchive` still succeeds with the stored handle; on an absent id code
it returns the invalid-handle error. -/
theorem c2_closeArchive_leaves_mapping :
    CloseArchive [(1, 42)] 1 = ([(1, 42)], RESULT_SUCCESS) ∧
    OpenArchive (CloseArchive [(1, 42)] 1).1 1 = .ok 42 ∧
    CloseArchive [] 1 = ([], InvalidHandle .FS) :=
  ⟨rfl, rfl, rfl⟩

/-- C8: `OpenArchive` returns the stored handle when the registry has a
mapping for the id code and the FS NotFound error when it has none (the
source only reads the registry, so it is unmodified by construction). -/
theorem c8_openArchive_spec (m : ArchiveMap) (idc : IdCode) :
    (∀ h, m.findId idc = some h → OpenArchive m idc = .ok h) ∧
    (m.findId idc = none → OpenArchive m idc = .err notFoundError) := by
  constructor
  · intro h hfind
    simp [OpenArchive, hfind]
  · intro hfind
    simp [OpenArchive, hfind]

theorem c8_openArchive_spec_witness :
    OpenArchive [(1, 42)] 1 = .ok 42 ∧
    OpenArchive [] 1 = .err notFoundError :=
  ⟨(c8_openArchive_spec [(1, 42)] 1).1 42 rfl,
   (c8_openArchive_spec [] 1).2 rfl⟩

/-- C10: for a Binary-type path, `OpenFileFromArchive` returns the archive
handle itself as the file handle and returns the pool unchanged — for
every pool, so no registry validation, no File registration and no
backend call takes place. -/
theorem c10_openFile_binary_shortcircuit (pool : ObjectPool) (h : Handle)
    (p : Path) (m : Mode) (hbin : p.type = LowPathType.Binary) :
    OpenFileFromArchive pool h p m = (pool, .ok h) := by
  simp [OpenFileFromArchive, hbin]

theorem c10_openFile_binary_shortcircuit_witness :
    binaryPath.type = LowPathType.Binary ∧
    OpenFileFromArchive emptyPool 7 binaryPath 3 = (emptyPool, .ok 7) :=
  ⟨rfl, c10_openFile_binary_shortcircuit emptyPool 7 binaryPath 3 rfl⟩

/-- C6: each of the three path operations returns the invalid-handle
error when the handle does not resolve to a live Archive, and otherwise
maps the matching backend capability's boolean to `RESULT_SUCCESS` or the
NoData/Canceled error. -/
theorem c6_pathOps_spec (pool : ObjectPool) (h : Handle) (p : Path) :
    (pool.GetArchive h = none →
      DeleteFileFromArchive pool h p = InvalidHandle .FS ∧
      DeleteDirectoryFromArchive pool h p = InvalidHandle .FS ∧
      CreateDirectoryFromArchive pool h p = InvalidHandle .FS) ∧
    (∀ a, pool.GetArchive h = some a →
      DeleteFileFromArchive pool h p =
        (if a.backend.deleteFile p then RESULT_SUCCESS else canceledError) ∧
      DeleteDirectoryFromArchive pool h p =
        (if a.backend.deleteDirectory p then RESULT_SUCCESS else canceledError) ∧
      CreateDirectoryFromArchive pool h p =
        (if a.backend.createDirectory p then RESULT_SUCCESS else canceledError)) := by
  constructor
  · intro hnone
    simp [DeleteFileFromArchive, DeleteDirectoryFromArchive,
          CreateDirectoryFromArchive, hnone]
  · intro a ha
    simp [DeleteFileFromArchive, DeleteDirectoryFromArchive,
          CreateDirectoryFromArchive, ha]

theorem c6_pathOps_spec_witness :
    DeleteFileFromArchive emptyPool 0 charPath = InvalidHandle .FS ∧
    DeleteFileFromArchive pool0 0 charPath = canceledError := by
  constructor
  · exact ((c6_pathOps_spec emptyPool 0 charPath).1 rfl).1
  · have h1 := ((c6_pathOps_spec pool0 0 charPath).2 sdmcArchive rfl).1
    rw [h1]
    rfl

/-- C5: same-archive rename (equal handles, both valid) maps backend
failure to the NothingHappened error; valid but distinct handles yield
the unimplemented-function error, for both the file and the directory
rename — and for every pool, so independently of any backend rename
capability. -/
theorem c5_rename_spec (pool : ObjectPool) (srcH destH : Handle)
    (sp dp : Path) :
    (∀ src, pool.GetArchive srcH = some src →
      src.backend.renameFile sp dp = false →
      RenameFileBetweenArchives pool srcH sp srcH dp = nothingHappenedError) ∧
    (∀ src dest, pool.GetArchive srcH = some src →
      pool.GetArchive destH = some dest → srcH ≠ destH →
      RenameFileBetweenArchives pool srcH sp destH dp =
        UnimplementedFunction .FS) ∧
    (∀ src, pool.GetArchive srcH = some src →
      src.backend.renameDirectory sp dp = false →
      RenameDirectoryBetweenArchives pool srcH sp srcH dp =
        nothingHappenedError) ∧
    (∀ src dest, pool.GetArchive srcH = some src →
      pool.GetArchive destH = some dest → srcH ≠ destH →
      RenameDirectoryBetweenArchives pool srcH sp destH dp =
        UnimplementedFunction .FS) := by
  refine ⟨?_, ?_, ?_, ?_⟩
  · intro src hsrc hren
    simp [RenameFileBetweenArchives, hsrc, hren]
  · intro src dest hsrc hdest hne
    simp [RenameFileBetweenArchives, hsrc, hdest, hne]
  · intro src hsrc hren
    simp [RenameDirectoryBetweenArchives, hsrc, hren]
  · intro src dest hsrc hdest hne
    simp [RenameDirectoryBetweenArchives, hsrc, hdest, hne]

theorem c5_rename_spec_witness :
    RenameFileBetweenArchives pool2 0 charPath 0 charPath =
      nothingHappenedError ∧
    RenameFileBetweenArchives pool2 0 charPath 1 charPath =
      UnimplementedFunction .FS ∧
    RenameDirectoryBetweenArchives pool2 0 charPath 0 charPath =
      nothingHappenedError ∧
    RenameDirectoryBetweenArchives pool2 0 charPath 1 charPath =
      UnimplementedFunction .FS :=
  ⟨(c5_rename_spec pool2 0 0 charPath charPath).1 sdmcArchive rfl rfl,
   (c5_rename_spec pool2 0 1 charPath charPath).2.1 sdmcArchive sdmcArchive
     rfl rfl (by decide),
   (c5_rename_spec pool2 0 0 charPath charPath).2.2.1 sdmcArchive rfl rfl,
   (c5_rename_spec pool2 0 1 charPath charPath).2.2.2 sdmcArchive sdmcArchive
     rfl rfl (by decide)⟩

/-- C3 fails as stated: on a valid archive whose backend lacks the path,
`OpenFileFromArchive` does return NotFound, but — against the claim — the
`File` object created before the backend check stays registered: the pool
gains an object at handle 1 where it had none, so it is not unchanged. -/
theorem c3_counterexample_file_left_in_pool :
    (OpenFileFromArchive pool0 0 charPath 3).2 = .err notFoundError ∧
    ((OpenFileFromArchive pool0 0 charPath 3).1.lookup 1).isSome = true ∧
    (pool0.lookup 1).isSome = false ∧
    (OpenFileFromArchive pool0 0 charPath 3).1 ≠ pool0 := by
  refine ⟨rfl, rfl, rfl, ?_⟩
  intro hEq
  have h2 : ((pool0.lookup 1).isSome) = true := by
    rw [← hEq]
    rfl
  exact absurd h2 (by decide)

/-- C3 amended: with a well-formed pool, a valid archive handle, a
non-Binary path and a backend with no file there, `OpenFileFromArchive`
returns the NotFound error, and the freshly created `File` object (path
filled in, backend null) remains registered at the previously free
handle. -/
theorem c3_openFile_notFound_leaks_file (pool : ObjectPool) (ah : Handle)
    (p : Path) (m : Mode) (a : ArchiveData) (hwf : pool.WF)
    (hp : p.type ≠ LowPathType.Binary) (ha : pool.GetArchive ah = some a)
    (hopen : a.backend.openFile p m = none) :
    (OpenFileFromArchive pool ah p m).2 = .err notFoundError ∧
    (OpenFileFromArchive pool ah p m).1.lookup pool.nextHandle =
      some (.file ⟨p, none⟩) ∧
    pool.lookup pool.nextHandle = none := by
  have hlt : ah < pool.nextHandle := ObjectPool.getArchive_lt_next pool ah a hwf ha
  have hkeep :
      ObjectPool.GetArchive
        ⟨(pool.nextHandle, .file FileData.defaultFile) :: pool.entries,
          pool.nextHandle + 1⟩ ah = some a :=
    (ObjectPool.getArchive_cons_fresh pool (.file FileData.defaultFile) ah hlt).trans ha
  refine ⟨?_, ?_, ObjectPool.lookup_next_eq_none pool hwf⟩
  · unfold OpenFileFromArchive ObjectPool.Create
    simp only [if_neg hp, hkeep, hopen]
  · unfold OpenFileFromArchive ObjectPool.Create
    simp only [if_neg hp, hkeep, hopen]
    exact ObjectPool.lookup_setObject_head pool.nextHandle (pool.nextHandle + 1)
      (.file FileData.defaultFile) (.file ⟨p, none⟩) pool.entries

theorem c3_openFile_notFound_leaks_file_witness :
    (OpenFileFromArchive pool0 0 charPath 3).2 = .err notFoundError ∧
    (OpenFileFromArchive pool0 0 charPath 3).1.lookup 1 =
      some (.file ⟨charPath, none⟩) ∧
    pool0.lookup 1 = none :=
  c3_openFile_notFound_leaks_file pool0 0 charPath 3 sdmcArchive
    (by intro e he; simp only [pool0, List.mem_singleton] at he; subst he; decide)
    (by decide) rfl rfl

/-- C4 fails as stated for the Archive variant: on an unrecognized command
(identifier 0, with an all-zero buffer) `Archive::SyncRequest` returns the
FS unimplemented-function error but leaves the status word (word 1) at 0 —
no non-zero status is written. -/
theorem c4_counterexample_archive_status_untouched :
    0 ∉ archiveRecognized ∧
    (Archive.SyncRequest absentBackend [] zeroBuf).2.1 1 = 0 ∧
    (Archive.SyncRequest absentBackend [] zeroBuf).2.2 =
      .err (UnimplementedFunction .FS) :=
  ⟨by decide, rfl, rfl⟩

/-- C4 amended: on a command identifier outside the recognized set, all
three dispatchers return the FS unimplemented-function error; `File` and
`Directory` first write its non-zero raw code into word 1 of the buffer,
while `Archive` returns with the buffer unmodified (no status written). -/
theorem c4_unknown_command_spec (a : ArchiveBackend) (m : ArchiveMap)
    (fb : FileBackend) (db : DirectoryBackend) (fh dh : Handle)
    (poolF poolD : ObjectPool) (buf : CmdBuf)
    (hfile : buf 0 ∉ fileRecognized) (hdir : buf 0 ∉ directoryRecognized) :
    Archive.SyncRequest a m buf = (m, buf, .err (UnimplementedFunction .FS)) ∧
    File.SyncRequest fb fh poolF buf =
      (poolF, buf.setWord 1 (UnimplementedFunction .FS).raw,
        .err (UnimplementedFunction .FS)) ∧
    Directory.SyncRequest db dh poolD buf =
      (poolD, buf.setWord 1 (UnimplementedFunction .FS).raw,
        .err (UnimplementedFunction .FS)) ∧
    (UnimplementedFunction .FS).raw ≠ 0 := by
  simp only [fileRecognized, archiveRecognized, directoryRecognized,
    List.mem_cons, List.mem_singleton, List.not_mem_nil, not_or] at hfile hdir
  obtain ⟨h1, h2, h3, h4, h5, -⟩ := hfile
  obtain ⟨h6, h7, -⟩ := hdir
  refine ⟨?_, ?_, ?_, by decide⟩
  · simp [Archive.SyncRequest, h1, h2, h3, h4, h5]
  · simp [File.SyncRequest, h1, h2, h3, h4, h5]
  · simp [Directory.SyncRequest, h6, h7]

theorem c4_unknown_command_spec_witness :
    (File.SyncRequest fb0 5 emptyPool zeroBuf).2.1 1 =
      (UnimplementedFunction .FS).raw ∧
    (UnimplementedFunction .FS).raw ≠ 0 := by
  have h := c4_unknown_command_spec absentBackend [] fb0 db0 5 6
    emptyPool emptyPool zeroBuf (by decide) (by decide)
  exact ⟨by rw [h.2.1]; rfl, h.2.2.2⟩

/-- C9: every recognized command, on every backend response, ends with 0
written into the status word (word 1) and a successful dispatch result
carrying `false`, for each of the three object variants. -/
theorem c9_recognized_command_spec (a : ArchiveBackend) (m : ArchiveMap)
    (fb : FileBackend) (db : DirectoryBackend) (fh dh : Handle)
    (poolF poolD : ObjectPool) (buf : CmdBuf) :
    (buf 0 ∈ archiveRecognized →
      (Archive.SyncRequest a m buf).2.1 1 = 0 ∧
      (Archive.SyncRequest a m buf).2.2 = .ok false) ∧
    (buf 0 ∈ fileRecognized →
      (File.SyncRequest fb fh poolF buf).2.1 1 = 0 ∧
      (File.SyncRequest fb fh poolF buf).2.2 = .ok false) ∧
    (buf 0 ∈ directoryRecognized →
      (Directory.SyncRequest db dh poolD buf).2.1 1 = 0 ∧
      (Directory.SyncRequest db dh poolD buf).2.2 = .ok false) := by
  refine ⟨?_, ?_, ?_⟩
  · intro hmem
    simp only [archiveRecognized, List.mem_cons, List.not_mem_nil,
      or_false] at hmem
    rcases hmem with h | h | h | h | h <;>
      simp [Archive.SyncRequest, h, CmdBuf.setWord, FileCommand.Read,
        FileCommand.Write, FileCommand.GetSize, FileCommand.SetSize,
        FileCommand.Close]
  · intro hmem
    simp only [fileRecognized, archiveRecognized, List.mem_cons,
      List.not_mem_nil, or_false] at hmem
    rcases hmem with h | h | h | h | h <;>
      simp [File.SyncRequest, h, CmdBuf.setWord, FileCommand.Read,
        FileCommand.Write, FileCommand.GetSize, FileCommand.SetSize,
        FileCommand.Close]
  · intro hmem
    simp only [directoryRecognized, List.mem_cons, List.not_mem_nil,
      or_false] at hmem
    rcases hmem with h | h <;>
      simp [Directory.SyncRequest, h, CmdBuf.setWord,
        DirectoryCommand.Read, DirectoryCommand.Close]

theorem c9_recognized_command_spec_witness :
    (Archive.SyncRequest absentBackend [] readBuf).2.2 = .ok false ∧
    (File.SyncRequest fb0 5 emptyPool readBuf).2.1 1 = 0 :=
  ⟨((c9_recognized_command_spec absentBackend [] fb0 db0 5 6 emptyPool
      emptyPool readBuf).1 (by decide)).2,
   ((c9_recognized_command_spec absentBackend [] fb0 db0 5 6 emptyPool
      emptyPool readBuf).2.1 (by decide)).1⟩

/-- Joining a value below `2^32` with a shifted high word by bitwise or
is plain addition. -/
theorem lor_shiftLeft_32_eq_add (lo hi : Nat) (h : lo < 2 ^ 32) :
    lo ||| (hi <<< 32) = lo + hi * 2 ^ 32 := by
  apply Nat.eq_of_testBit_eq
  intro j
  rw [Nat.testBit_lor, Nat.testBit_shiftLeft,
    Nat.add_comm lo (hi * 2 ^ 32), Nat.mul_comm hi (2 ^ 32),
    Nat.testBit_mul_pow_two_add hi h j]
  by_cases hj : j < 32
  · have hnot : ¬ (j ≥ 32) := by omega
    simp [hj, hnot]
  · have hge : j ≥ 32 := by omega
    have hlt : lo < 2 ^ j :=
      lt_of_lt_of_le h (Nat.pow_le_pow_right (by omega) hge)
    simp [hj, hge, Nat.testBit_eq_false_of_lt hlt]

/-- C7: splitting a 64-bit size into two 32-bit words exactly as the
`GetSize` encode does and joining them back exactly as the `SetSize`
decode does reproduces the size. -/
theorem c7_size_roundtrip (S : Nat) (h : S < 2 ^ 64) :
    decode64 (encodeSize64 S).1 (encodeSize64 S).2 = S := by
  unfold decode64 encodeSize64 toU32
  simp only
  rw [Nat.shiftRight_eq_div_pow]
  have hdiv : S / 2 ^ 32 < 2 ^ 32 := by
    apply Nat.div_lt_of_lt_mul
    calc S < 2 ^ 64 := h
    _ = 2 ^ 32 * 2 ^ 32 := by norm_num
  rw [Nat.mod_eq_of_lt hdiv,
    lor_shiftLeft_32_eq_add _ _ (Nat.mod_lt S (by norm_num))]
  exact Nat.mod_add_div' S (2 ^ 32)

theorem c7_size_roundtrip_witness :
    (decode64 (encodeSize64 0).1 (encodeSize64 0).2 = 0) ∧
    (decode64 (encodeSize64 1).1 (encodeSize64 1).2 = 1) ∧
    (decode64 (encodeSize64 (2 ^ 32 - 1)).1 (encodeSize64 (2 ^ 32 - 1)).2 =
      2 ^ 32 - 1) ∧
    (decode64 (encodeSize64 (2 ^ 32)).1 (encodeSize64 (2 ^ 32)).2 = 2 ^ 32) ∧
    (decode64 (encodeSize64 (2 ^ 64 - 1)).1 (encodeSize64 (2 ^ 64 - 1)).2 =
      2 ^ 64 - 1) :=
  ⟨c7_size_roundtrip 0 (by decide),
   c7_size_roundtrip 1 (by decide),
   c7_size_roundtrip (2 ^ 32 - 1) (by decide),
   c7_size_roundtrip (2 ^ 32) (by decide),
   c7_size_roundtrip (2 ^ 64 - 1) (by decide)⟩

end Citra
